import Mathlib

-- Verification development for the YOLO DeepStream plugin:
-- a shallow embedding of the config parser and network builder of
-- src/nvdsinfer_custom_impl_Yolo/yoloForward.cu (second document: yolo.cpp content)
-- and of the two GPU decode kernels gpuYoloLayer (same file, first document) and
-- gpuRegionLayer / softmaxGPU (src/unnamed/part_000).
-- Floating point values are modelled as rationals; the CUDA intrinsic __expf is
-- modelled as an abstract function parameter E. CUDA unsigned 32-bit arithmetic
-- in the back-reference asserts is modelled with an explicit mod 2^32.

namespace YoloV

-- ------------------------------------------------------------------
-- Generic pointwise array update (device arrays are modelled as total
-- functions from flat indices).
-- ------------------------------------------------------------------

def upd {α : Type} (f : ℕ → α) (n : ℕ) (v : α) : ℕ → α :=
  fun m => if m = n then v else f m

-- ------------------------------------------------------------------
-- Config parser, Yolo::parseConfigFile (yolo.cpp lines 582-619).
-- A text line is a list of characters; a block is the std::map of a section,
-- modelled as an association list where insert keeps the existing binding
-- (the semantics of std::map::insert, which does not overwrite).
-- ------------------------------------------------------------------

abbrev Line := List Char

def strL (s : String) : Line := s.toList

def isWS (c : Char) : Bool := c == ' ' || c == '\t'

/-- Modelled from the spec: the text trimming utility is not under src
(excluded glue); the spec says key and value are both trimmed of
surrounding whitespace. -/
def trim (l : Line) : Line :=
  ((l.dropWhile isWS).reverse.dropWhile isWS).reverse

abbrev Block := List (Line × Line)

def mapFind (b : Block) (k : Line) : Option Line :=
  (b.find? (fun p => p.1 == k)).map (fun p => p.2)

-- std::map::insert inserts only if the key is not already present.
def mapInsert (b : Block) (k v : Line) : Block :=
  if (mapFind b k).isSome then b else b ++ [(k, v)]

-- One iteration of the getline loop of parseConfigFile. State: the flushed
-- blocks so far and the currently open block.
def parseLine (st : List Block × Block) (line : Line) : List Block × Block :=
  match line with
  | [] => st
  | c :: _ =>
    if c = ' ' then st
    else if c = '#' then st
    else
      let l := trim line
      -- line.front() on the trimmed line; libstdc++ yields the NUL character
      -- for the empty string, which falls through to the key=value branch.
      if l.headD '\x00' = '[' then
        let bs := if st.2.length > 0 then st.1 ++ [st.2] else st.1
        -- value = trim(line.substr(1, line.size() - 2))
        (bs, mapInsert [] (strL "type") (trim ((l.drop 1).take (l.length - 2))))
      else
        match l.findIdx? (fun c => c = '=') with
        | some cpos => (st.1, mapInsert st.2 (trim (l.take cpos)) (trim (l.drop (cpos + 1))))
        | none =>
          -- std::string::find returns npos; substr(0, npos) is the whole line and
          -- substr(npos + 1) wraps to substr(0), also the whole line.
          (st.1, mapInsert st.2 (trim l) (trim l))

def parseConfigFile (lines : List Line) : List Block :=
  let st := lines.foldl parseLine ([], [])
  st.1 ++ [st.2]

def skipLine : Line → Bool
  | [] => true
  | c :: _ => c == ' ' || c == '#'

def isSectionLine (l : Line) : Bool :=
  !skipLine l && ((trim l).headD '\x00' == '[')

def sectionName (l : Line) : Line :=
  let t := trim l
  trim ((t.drop 1).take (t.length - 2))

def sectionNames (lines : List Line) : List Line :=
  (lines.filter isSectionLine).map sectionName

-- ------------------------------------------------------------------
-- Network builder, Yolo::buildYoloNetwork (yolo.cpp lines 263-580).
-- Tensors are modelled by their Dims3 (channels, height, width). The layer
-- constructors convolutionalLayer, implicitLayer, channelsLayer,
-- shortcutLayer, routeLayer, upsampleLayer, maxpoolLayer, reorgV5Layer, the
-- reorg plugin and std::stoi live in repository files that are not under
-- src/; they are abstracted as an explicit parameter structure Ext, while
-- the control skeleton (dispatch, asserts, weight cursor, tensorOutputs
-- bookkeeping and the post-loop checks) is translated from the source.
-- ------------------------------------------------------------------

structure Tensor where
  c : ℕ
  h : ℕ
  w : ℕ
deriving DecidableEq

instance : Inhabited Tensor := ⟨⟨0, 0, 0⟩⟩

-- TensorInfo from yolo.h as populated by parseConfigBlocks (lines 641-713).
structure TensorInfo where
  anchors : List ℚ
  mask : List ℕ
  scaleXY : ℚ
  numBBoxes : ℕ
  gridSizeX : ℕ
  gridSizeY : ℕ

instance : Inhabited TensorInfo := ⟨⟨[], [], 1, 0, 0, 0⟩⟩

-- Each failing assert or fatal branch of the builder, as an error value.
inductive BuildError
  | channelsMismatch
  | missingType
  | missingKey
  | backRefAssert
  | routeFail
  | yoloTensorsAt
  | unsupportedLayer
  | unusedWeights
  | modelTypeUnknown
  | topkTooBig
  | cfgError
deriving DecidableEq

-- External layer constructors (files not under src/): each returns the new
-- output tensor and, for the weight consuming ones, the advanced weight
-- cursor. stoi models std::stoi.
structure Ext where
  conv : Block → ℕ → Tensor → Tensor × ℕ
  implicitL : ℤ → ℕ → Tensor × ℕ
  channelsL : Tensor → Tensor → Tensor
  shortcutL : Tensor → Tensor → Tensor
  route : Block → List Tensor → Option Tensor
  upsample : Block → Tensor → Tensor
  maxpool : Block → Tensor → Tensor
  reorgV5 : Tensor → Tensor
  reorgPlugin : Tensor → Tensor
  stoi : Line → ℤ

-- Member state of the Yolo object read by buildYoloNetwork.
structure BuildParams where
  inputC : ℕ
  inputH : ℕ
  inputW : ℕ
  yoloCount : ℕ
  topK : ℕ
  yoloTensors : List TensorInfo
  isYolor : Bool
  isYolov5 : Bool

-- CUDA/C++ unsigned 32-bit reading of a signed value.
def u32 (z : ℤ) : ℕ := (z % (2 ^ 32 : ℤ)).toNat

-- Lines 342-344 / 370-372: if (from > 0) from = from - i + 1;
def backRefResolve (i : ℕ) (frm : ℤ) : ℤ :=
  if frm > 0 then frm - (i : ℤ) + 1 else frm

-- Lines 345-347 / 373-375: the three asserts guarding a back-reference.
-- i is a uint, from an int; i - 2 and i + from - 1 are computed in unsigned
-- arithmetic, so the >= 0 conjuncts of the source are vacuously true and the
-- bound comparisons see the wrapped values.
def backRefOk (i : ℕ) (frm : ℤ) (len : ℕ) : Bool :=
  let f := backRefResolve i frm
  decide (u32 ((i : ℤ) - 2) < len) &&
  decide (u32 ((i : ℤ) + f - 1) < len) &&
  decide (u32 ((i : ℤ) + f - 1) < u32 ((i : ℤ) - 2))

/-- The back-reference success condition as the spec words it (claim C3):
a non-negative from is normalized to from - currentIndex + 1, and the build
succeeds iff the resolved target index is within bounds of the sequence so
far and strictly less than currentIndex - 1. Spec-side definition, to be
compared with backRefOk, which is translated from the source. -/
def backRefOkSpec (i : ℕ) (frm : ℤ) (len : ℕ) : Bool :=
  let f := if frm ≥ 0 then frm - (i : ℤ) + 1 else frm
  let r := (i : ℤ) + f - 1
  decide (0 ≤ r) && decide (r < (len : ℤ)) && decide (r < (i : ℤ) - 1)

structure LoopState where
  weightPtr : ℕ
  channels : ℕ
  previous : Tensor
  tensorOutputs : List Tensor
  yoloInputs : List Tensor
  inputYoloCount : ℕ
  modelType : ℤ
  yoloTensors : List TensorInfo

def initState (P : BuildParams) : LoopState :=
  { weightPtr := 0
    channels := P.inputC
    previous := ⟨P.inputC, P.inputH, P.inputW⟩
    tensorOutputs := []
    yoloInputs := []
    inputYoloCount := 0
    modelType := -1
    yoloTensors := P.yoloTensors }

-- One iteration of the block loop (lines 293-489); i is the block index.
def processBlock (ext : Ext) (P : BuildParams) (i : ℕ) (blk : Block) (st : LoopState) :
    Except BuildError LoopState :=
  -- line 295: assert(getNumChannels(previous) == channels)
  if st.previous.c ≠ st.channels then .error .channelsMismatch
  else
    match mapFind blk (strL "type") with
    | none => .error .missingType
    | some t =>
      if t = strL "net" then .ok st
      else if t = strL "convolutional" then
        let r := ext.conv blk st.weightPtr st.previous
        .ok { st with previous := r.1, channels := r.1.c, weightPtr := r.2,
                      tensorOutputs := st.tensorOutputs ++ [r.1] }
      else if t = strL "implicit_add" ∨ t = strL "implicit_mul" then
        match mapFind blk (strL "filters") with
        | none => .error .missingKey
        | some fs =>
          let r := ext.implicitL (ext.stoi fs) st.weightPtr
          .ok { st with previous := r.1, channels := r.1.c, weightPtr := r.2,
                        tensorOutputs := st.tensorOutputs ++ [r.1] }
      else if t = strL "shift_channels" ∨ t = strL "control_channels" then
        match mapFind blk (strL "from") with
        | none => .error .missingKey
        | some fs =>
          let frm := ext.stoi fs
          if backRefOk i frm st.tensorOutputs.length then
            let tgt := st.tensorOutputs.getD (u32 ((i : ℤ) + backRefResolve i frm - 1)) default
            let out := ext.channelsL st.previous tgt
            .ok { st with previous := out, tensorOutputs := st.tensorOutputs ++ [out] }
          else .error .backRefAssert
      else if t = strL "dropout" then
        .ok { st with tensorOutputs := st.tensorOutputs ++ [st.previous] }
      else if t = strL "shortcut" then
        match mapFind blk (strL "activation"), mapFind blk (strL "from") with
        | none, _ => .error .missingKey
        | _, none => .error .missingKey
        | some _, some fs =>
          let frm := ext.stoi fs
          if backRefOk i frm st.tensorOutputs.length then
            let tgt := st.tensorOutputs.getD (u32 ((i : ℤ) + backRefResolve i frm - 1)) default
            let out := ext.shortcutL st.previous tgt
            -- shape mismatch between the operands is only logged, never fatal
            .ok { st with previous := out, tensorOutputs := st.tensorOutputs ++ [out] }
          else .error .backRefAssert
      else if t = strL "route" then
        match mapFind blk (strL "layers") with
        | none => .error .missingKey
        | some _ =>
          match ext.route blk st.tensorOutputs with
          | none => .error .routeFail
          | some out =>
            .ok { st with previous := out, channels := out.c,
                          tensorOutputs := st.tensorOutputs ++ [out] }
      else if t = strL "upsample" then
        let out := ext.upsample blk st.previous
        .ok { st with previous := out, tensorOutputs := st.tensorOutputs ++ [out] }
      else if t = strL "maxpool" then
        let out := ext.maxpool blk st.previous
        .ok { st with previous := out, tensorOutputs := st.tensorOutputs ++ [out] }
      else if t = strL "reorg" then
        let out := if P.isYolov5 || P.isYolor then ext.reorgV5 st.previous
                   else ext.reorgPlugin st.previous
        .ok { st with previous := out, channels := out.c,
                      tensorOutputs := st.tensorOutputs ++ [out] }
      else if t = strL "yolo" ∨ t = strL "region" then
        let mt : ℤ := if t = strL "yolo" then (if P.isYolor then 2 else 1) else 0
        match st.yoloTensors.get? st.inputYoloCount with
        | none => .error .yoloTensorsAt -- m_YoloTensors.at(inputYoloCount) throws
        | some ti =>
          let ti2 := { ti with gridSizeX := st.previous.w, gridSizeY := st.previous.h }
          .ok { st with modelType := mt,
                        yoloTensors := st.yoloTensors.set st.inputYoloCount ti2,
                        channels := st.previous.c,
                        tensorOutputs := st.tensorOutputs ++ [st.previous],
                        yoloInputs := st.yoloInputs ++ [st.previous],
                        inputYoloCount := st.inputYoloCount + 1 }
      else .error .unsupportedLayer

def buildLoopAux (ext : Ext) (P : BuildParams) :
    List Block → ℕ → LoopState → Except BuildError LoopState
  | [], _, st => .ok st
  | blk :: rest, i, st =>
    match processBlock ext P i blk st with
    | .error e => .error e
    | .ok st2 => buildLoopAux ext P rest (i + 1) st2

-- Lines 503-508: outputSize accumulated over the first inputYoloCount scales.
def outputSizeOf (st : LoopState) : ℕ :=
  ((List.range st.inputYoloCount).map (fun j =>
    let ti := st.yoloTensors.getD j default
    ti.gridSizeX * ti.gridSizeY * ti.numBBoxes)).sum

-- buildYoloNetwork: the loop, then the post-loop checks of lines 491-514 and
-- 565-568. Everything after the topk check (plugin and NMS wiring) only
-- asserts non-null handles and is modelled as success.
def buildYoloNetwork (ext : Ext) (P : BuildParams) (blocks : List Block) (wlen : ℕ) :
    Except BuildError LoopState :=
  match buildLoopAux ext P blocks 0 (initState P) with
  | .error e => .error e
  | .ok st =>
    -- lines 491-495: if ((int)weights.size() != weightPtr) assert(0)
    if wlen ≠ st.weightPtr then .error .unusedWeights
    -- line 497 / 565-568: if (m_YoloCount == inputYoloCount) ... else assert(0)
    else if P.yoloCount = st.inputYoloCount then
      -- line 499: assert(modelType != -1)
      if st.modelType = -1 then .error .modelTypeUnknown
      -- lines 510-514: if (m_TopK > outputSize) assert(0)
      else if P.topK > outputSizeOf st then .error .topkTooBig
      else .ok st
    else .error .cfgError

-- ------------------------------------------------------------------
-- GPU decode kernels. A thread is identified by (x_id, y_id, z_id); the
-- atomic compaction is modelled by threading a DecodeState through the
-- per-thread body, count playing the role of the shared counter. E models
-- the CUDA intrinsic __expf.
-- ------------------------------------------------------------------

-- The flat tensor index input[bbindex + numGridCells * (z_id * (5 + nc) + ch)].
def tensorIdx (numGridCells bbindex nc z_id ch : ℕ) : ℕ :=
  bbindex + numGridCells * (z_id * (5 + nc) + ch)

-- sigmoidGPU(x) = 1.0f / (1.0f + __expf(-x))
def sigmoidGPU (E : ℚ → ℚ) (x : ℚ) : ℚ := 1 / (1 + E (-x))

-- C float-to-int conversion truncates toward zero (part_000 line 18:
-- int val = input[...]): floor for nonnegative values, ceiling for negative.
def truncQ (q : ℚ) : ℤ := if 0 ≤ q then ⌊q⌋ else ⌈q⌉

-- First loop of softmaxGPU (part_000 lines 16-20): largest starts at
-- -INFINITY (modelled by the bottom of WithBot) and maximizes the
-- int-truncated class logits.
def softmaxLargest (input : ℕ → ℚ) (bbindex numGridCells z_id nc : ℕ) : WithBot ℤ :=
  (List.range nc).foldl
    (fun largest i =>
      max largest ((truncQ (input (tensorIdx numGridCells bbindex nc z_id (5 + i))) : ℤ) : WithBot ℤ))
    ⊥

-- softmaxGPU (part_000 lines 10-29). The arithmetic on largest only happens
-- inside loops over the classes, so the -INFINITY start is observable only
-- when nc = 0, where no write happens; unbot' 0 is a placeholder there.
def softmaxGPU (E : ℚ → ℚ) (input : ℕ → ℚ) (bbindex numGridCells z_id nc : ℕ)
    (temp : ℚ) (output : ℕ → ℚ) : ℕ → ℚ :=
  let largest : ℚ := ((softmaxLargest input bbindex numGridCells z_id nc).unbot' 0 : ℤ)
  let e := fun i => E (input (tensorIdx numGridCells bbindex nc z_id (5 + i)) / temp - largest / temp)
  let sum := (List.range nc).foldl (fun s i => s + e i) 0
  let afterW := (List.range nc).foldl
    (fun out i => upd out (tensorIdx numGridCells bbindex nc z_id (5 + i)) (e i)) output
  (List.range nc).foldl
    (fun out i =>
      upd out (tensorIdx numGridCells bbindex nc z_id (5 + i))
        (out (tensorIdx numGridCells bbindex nc z_id (5 + i)) / sum))
    afterW

-- The maxProb/maxIndex scan shared by both kernels (maxProb = 0.0f,
-- maxIndex = -1, updated when prob > maxProb).
def classMaxLoop (prob : ℕ → ℚ) (nc : ℕ) : ℚ × ℤ :=
  (List.range nc).foldl
    (fun mp i => if prob i > mp.1 then (prob i, (i : ℤ)) else mp) (0, -1)

-- The per-batch output arrays and the shared counter.
structure DecodeState where
  count : ℕ
  d_indexes : ℕ → ℤ
  d_scores : ℕ → ℚ
  d_boxes : ℕ → ℚ
  d_classes : ℕ → ℤ

structure YoloParams where
  input : ℕ → ℚ
  scoreThreshold : ℚ
  netWidth : ℕ
  netHeight : ℕ
  gridSizeX : ℕ
  gridSizeY : ℕ
  numOutputClasses : ℕ
  numBBoxes : ℕ
  scaleXY : ℚ
  anchors : ℕ → ℚ
  mask : ℕ → ℕ

-- gpuYoloLayer (yoloForward.cu lines 10-74), body of one thread.
def gpuYoloLayer (E : ℚ → ℚ) (p : YoloParams) (x_id y_id z_id : ℕ) (s : DecodeState) :
    DecodeState :=
  if x_id ≥ p.gridSizeX ∨ y_id ≥ p.gridSizeY ∨ z_id ≥ p.numBBoxes then s
  else
    let numGridCells := p.gridSizeX * p.gridSizeY
    let bbindex := y_id * p.gridSizeX + x_id
    let nc := p.numOutputClasses
    let objectness := sigmoidGPU E (p.input (tensorIdx numGridCells bbindex nc z_id 4))
    if objectness < p.scoreThreshold then s
    else
      let count := s.count
      let alpha := p.scaleXY
      let beta := -(1 / 2 : ℚ) * (p.scaleXY - 1)
      let x := (sigmoidGPU E (p.input (tensorIdx numGridCells bbindex nc z_id 0))
                * alpha + beta + (x_id : ℚ)) * (p.netWidth : ℚ) / (p.gridSizeX : ℚ)
      let y := (sigmoidGPU E (p.input (tensorIdx numGridCells bbindex nc z_id 1))
                * alpha + beta + (y_id : ℚ)) * (p.netHeight : ℚ) / (p.gridSizeY : ℚ)
      let w := E (p.input (tensorIdx numGridCells bbindex nc z_id 2))
                * p.anchors (p.mask z_id * 2)
      let h := E (p.input (tensorIdx numGridCells bbindex nc z_id 3))
                * p.anchors (p.mask z_id * 2 + 1)
      let mp := classMaxLoop
        (fun i => sigmoidGPU E (p.input (tensorIdx numGridCells bbindex nc z_id (5 + i)))) nc
      { count := count + 1
        d_indexes := upd s.d_indexes count (count : ℤ)
        d_scores := upd s.d_scores count (objectness * mp.1 + 1)
        d_boxes := upd (upd (upd (upd s.d_boxes
                    (count * 4 + 0) (x - (1 / 2) * w))
                    (count * 4 + 1) (y - (1 / 2) * h))
                    (count * 4 + 2) (x + (1 / 2) * w))
                    (count * 4 + 3) (y + (1 / 2) * h)
        d_classes := upd s.d_classes count mp.2 }

structure RegionParams where
  input : ℕ → ℚ
  scoreThreshold : ℚ
  netWidth : ℕ
  netHeight : ℕ
  gridSizeX : ℕ
  gridSizeY : ℕ
  numOutputClasses : ℕ
  numBBoxes : ℕ
  anchors : ℕ → ℚ

-- gpuRegionLayer (part_000 lines 31-94), body of one thread; the softmax
-- scratch buffer is threaded alongside the output state.
def gpuRegionLayer (E : ℚ → ℚ) (p : RegionParams) (x_id y_id z_id : ℕ)
    (s : DecodeState) (softmax : ℕ → ℚ) : DecodeState × (ℕ → ℚ) :=
  if x_id ≥ p.gridSizeX ∨ y_id ≥ p.gridSizeY ∨ z_id ≥ p.numBBoxes then (s, softmax)
  else
    let numGridCells := p.gridSizeX * p.gridSizeY
    let bbindex := y_id * p.gridSizeX + x_id
    let nc := p.numOutputClasses
    let objectness := sigmoidGPU E (p.input (tensorIdx numGridCells bbindex nc z_id 4))
    if objectness < p.scoreThreshold then (s, softmax)
    else
      let count := s.count
      let x := (sigmoidGPU E (p.input (tensorIdx numGridCells bbindex nc z_id 0))
                + (x_id : ℚ)) * (p.netWidth : ℚ) / (p.gridSizeX : ℚ)
      let y := (sigmoidGPU E (p.input (tensorIdx numGridCells bbindex nc z_id 1))
                + (y_id : ℚ)) * (p.netHeight : ℚ) / (p.gridSizeY : ℚ)
      let w := E (p.input (tensorIdx numGridCells bbindex nc z_id 2))
                * p.anchors (z_id * 2) * (p.netWidth : ℚ) / (p.gridSizeX : ℚ)
      let h := E (p.input (tensorIdx numGridCells bbindex nc z_id 3))
                * p.anchors (z_id * 2 + 1) * (p.netHeight : ℚ) / (p.gridSizeY : ℚ)
      let sm := softmaxGPU E p.input bbindex numGridCells z_id nc 1 softmax
      let mp := classMaxLoop
        (fun i => sm (tensorIdx numGridCells bbindex nc z_id (5 + i))) nc
      ({ count := count + 1
         d_indexes := upd s.d_indexes count (count : ℤ)
         d_scores := upd s.d_scores count (objectness * mp.1 + 1)
         d_boxes := upd (upd (upd (upd s.d_boxes
                     (count * 4 + 0) (x - (1 / 2) * w))
                     (count * 4 + 1) (y - (1 / 2) * h))
                     (count * 4 + 2) (x + (1 / 2) * w))
                     (count * 4 + 3) (y + (1 / 2) * h)
         d_classes := upd s.d_classes count mp.2 }, sm)

-- ------------------------------------------------------------------
-- Concrete fixtures used by witnesses and counterexamples.
-- ------------------------------------------------------------------

-- A concrete model of __expf for witnesses: the constant function 1. It is
-- strictly positive and turns sums into products, as the real exponential does.
def E1 : ℚ → ℚ := fun _ => 1

def inp0 : ℕ → ℚ := fun _ => 0

def s0 : DecodeState := ⟨0, fun _ => 0, fun _ => 0, fun _ => 0, fun _ => 0⟩

def pY : YoloParams :=
  { input := inp0, scoreThreshold := 0, netWidth := 2, netHeight := 2,
    gridSizeX := 1, gridSizeY := 1, numOutputClasses := 1, numBBoxes := 1,
    scaleXY := 1, anchors := fun _ => 3, mask := fun _ => 0 }

def pR : RegionParams :=
  { input := inp0, scoreThreshold := 0, netWidth := 2, netHeight := 2,
    gridSizeX := 1, gridSizeY := 1, numOutputClasses := 1, numBBoxes := 1,
    anchors := fun _ => 3 }

-- Yolo kernel parameters whose threshold equals the objectness that a zero
-- logit produces under E1 (sigmoid 0 = 1/2): the exact-boundary fixture.
def pYeq : YoloParams := { pY with scoreThreshold := 1 / 2 }

-- Constant input whose single class logit is 5/2, exposing the int
-- truncation in the stabilizer of softmaxGPU.
def inp52 : ℕ → ℚ := fun _ => 5 / 2

-- Trivial instantiation of the external layer constructors, used to run the
-- builder skeleton on concrete inputs.
def extT : Ext :=
  { conv := fun _ wp t => (t, wp)
    implicitL := fun _ wp => (default, wp)
    channelsL := fun a _ => a
    shortcutL := fun a _ => a
    route := fun _ _ => none
    upsample := fun _ t => t
    maxpool := fun _ t => t
    reorgV5 := fun t => t
    reorgPlugin := fun t => t
    stoi := fun _ => 0 }

def tiT : TensorInfo :=
  { anchors := [], mask := [], scaleXY := 1, numBBoxes := 1, gridSizeX := 0, gridSizeY := 0 }

def P1 : BuildParams :=
  { inputC := 3, inputH := 2, inputW := 2, yoloCount := 1, topK := 1,
    yoloTensors := [tiT], isYolor := false, isYolov5 := false }

def blkNet : Block := [(strL "type", strL "net")]

def blkYolo : Block := [(strL "type", strL "yolo")]

def blkShort : Block :=
  [(strL "type", strL "shortcut"), (strL "activation", strL "linear"),
   (strL "from", strL "0")]

def stShort : LoopState :=
  { weightPtr := 0, channels := 0, previous := ⟨0, 0, 0⟩,
    tensorOutputs := [default, default, default, default], yoloInputs := [],
    inputYoloCount := 0, modelType := -1, yoloTensors := [] }

-- A well-formed two-block config (net then yolo) on which the build succeeds.
def blocks2 : List Block := [blkNet, blkYolo]

-- Three yolo sections with three parsed scale infos.
def blocks4 : List Block := [blkNet, blkYolo, blkYolo, blkYolo]

def P2 : BuildParams :=
  { inputC := 3, inputH := 2, inputW := 2, yoloCount := 2, topK := 1,
    yoloTensors := [tiT, tiT, tiT], isYolor := false, isYolov5 := false }

def P3 : BuildParams :=
  { inputC := 3, inputH := 2, inputW := 2, yoloCount := 1, topK := 99,
    yoloTensors := [tiT], isYolor := false, isYolov5 := false }

-- ------------------------------------------------------------------
-- Helper lemmas.
-- ------------------------------------------------------------------

theorem upd_self {α : Type} (f : ℕ → α) (n : ℕ) (v : α) : upd f n v n = v := by
  simp [upd]

theorem upd_ne {α : Type} (f : ℕ → α) (n : ℕ) (v : α) (m : ℕ) (h : m ≠ n) :
    upd f n v m = f m := by
  simp [upd, h]

-- A fold of updates at indices whose images avoid p leaves position p alone.
theorem foldl_upd_notin (V : (ℕ → ℚ) → ℕ → ℚ) (l : List ℕ) (F : ℕ → ℕ)
    (o : ℕ → ℚ) (p : ℕ) (h : ∀ j ∈ l, F j ≠ p) :
    (l.foldl (fun acc j => upd acc (F j) (V acc j)) o) p = o p := by
  induction l generalizing o with
  | nil => rfl
  | cons a t ih =>
    simp only [List.foldl_cons]
    rw [ih _ (fun j hj => h j (List.mem_cons_of_mem _ hj))]
    exact upd_ne _ _ _ _ (Ne.symm (h a (List.mem_cons_self _ _)))

-- A fold of pure writes at pairwise distinct indices stores each value.
theorem foldl_upd_write (v : ℕ → ℚ) (l : List ℕ) (F : ℕ → ℕ) (o : ℕ → ℚ) (i : ℕ)
    (hm : i ∈ l) (hnd : l.Nodup)
    (hinj : ∀ a ∈ l, ∀ b ∈ l, F a = F b → a = b) :
    (l.foldl (fun acc j => upd acc (F j) (v j)) o) (F i) = v i := by
  induction l generalizing o with
  | nil => cases hm
  | cons a t ih =>
    simp only [List.foldl_cons]
    rcases List.mem_cons.mp hm with rfl | hmt
    · rw [foldl_upd_notin (fun _ j => v j) t F _ (F i) ?_]
      · exact upd_self _ _ _
      · intro j hj he
        have hji : j = i :=
          hinj j (List.mem_cons_of_mem _ hj) i (List.mem_cons_self _ _) he
        subst hji
        exact (List.nodup_cons.mp hnd).1 hj
    · exact ih (upd o (F a) (v a)) hmt (List.nodup_cons.mp hnd).2
        (fun a2 ha2 b hb => hinj a2 (List.mem_cons_of_mem _ ha2) b (List.mem_cons_of_mem _ hb))

-- A fold of read-modify-write divisions at pairwise distinct indices divides
-- each previously stored value once.
theorem foldl_upd_div (w : ℕ → ℚ) (sdiv : ℚ) (l : List ℕ) (F : ℕ → ℕ)
    (o : ℕ → ℚ) (i : ℕ)
    (ho : ∀ j ∈ l, o (F j) = w j) (hm : i ∈ l) (hnd : l.Nodup)
    (hinj : ∀ a ∈ l, ∀ b ∈ l, F a = F b → a = b) :
    (l.foldl (fun acc j => upd acc (F j) (acc (F j) / sdiv)) o) (F i) = w i / sdiv := by
  induction l generalizing o with
  | nil => cases hm
  | cons a t ih =>
    simp only [List.foldl_cons]
    rcases List.mem_cons.mp hm with rfl | hmt
    · rw [foldl_upd_notin (fun acc j => acc (F j) / sdiv) t F _ (F i) ?_]
      · rw [upd_self, ho i (List.mem_cons_self _ _)]
      · intro j hj he
        have hji : j = i :=
          hinj j (List.mem_cons_of_mem _ hj) i (List.mem_cons_self _ _) he
        subst hji
        exact (List.nodup_cons.mp hnd).1 hj
    · refine ih (upd o (F a) (o (F a) / sdiv)) ?_ hmt (List.nodup_cons.mp hnd).2
        (fun a2 ha2 b hb => hinj a2 (List.mem_cons_of_mem _ ha2) b (List.mem_cons_of_mem _ hb))
      intro j hj
      rw [upd_ne]
      · exact ho j (List.mem_cons_of_mem _ hj)
      · intro he
        have hja : j = a :=
          hinj j (List.mem_cons_of_mem _ hj) a (List.mem_cons_self _ _) he
        subst hja
        exact (List.nodup_cons.mp hnd).1 hj

-- Folded addition is the list sum.
theorem foldl_add_eq (e : ℕ → ℚ) (l : List ℕ) (a : ℚ) :
    l.foldl (fun s i => s + e i) a = a + (l.map e).sum := by
  induction l generalizing a with
  | nil => simp
  | cons b t ih =>
    simp only [List.foldl_cons, List.map_cons, List.sum_cons, ih]
    ring

-- The class channels of one cell/anchor have pairwise distinct flat indices
-- as soon as the grid is nonempty.
theorem tensorIdx_inj (G bb nc z : ℕ) (hG : 0 < G) (a b : ℕ)
    (h : tensorIdx G bb nc z (5 + a) = tensorIdx G bb nc z (5 + b)) : a = b := by
  unfold tensorIdx at h
  have h2 : z * (5 + nc) + (5 + a) = z * (5 + nc) + (5 + b) :=
    Nat.eq_of_mul_eq_mul_left hG (by omega)
  omega

-- Where softmaxGPU leaves a class slot: the stabilized exponential divided by
-- the accumulated sum.
theorem softmaxGPU_apply (E : ℚ → ℚ) (input : ℕ → ℚ) (bb G z nc : ℕ) (temp : ℚ)
    (out : ℕ → ℚ) (hG : 0 < G) (i : ℕ) (hi : i < nc) :
    softmaxGPU E input bb G z nc temp out (tensorIdx G bb nc z (5 + i))
      = E (input (tensorIdx G bb nc z (5 + i)) / temp
            - (((softmaxLargest input bb G z nc).unbot' 0 : ℤ) : ℚ) / temp)
        / ((List.range nc).map (fun j =>
            E (input (tensorIdx G bb nc z (5 + j)) / temp
              - (((softmaxLargest input bb G z nc).unbot' 0 : ℤ) : ℚ) / temp))).sum := by
  have hmem : i ∈ List.range nc := List.mem_range.mpr hi
  have hinj : ∀ a ∈ List.range nc, ∀ b ∈ List.range nc,
      (fun j => tensorIdx G bb nc z (5 + j)) a = (fun j => tensorIdx G bb nc z (5 + j)) b →
      a = b := fun a _ b _ h => tensorIdx_inj G bb nc z hG a b h
  simp only [softmaxGPU]
  rw [foldl_upd_div
      (fun j => E (input (tensorIdx G bb nc z (5 + j)) / temp
        - (((softmaxLargest input bb G z nc).unbot' 0 : ℤ) : ℚ) / temp))
      _ _ _ _ i ?_ hmem (List.nodup_range nc) hinj]
  · rw [foldl_add_eq, zero_add]
  · intro j hj
    exact foldl_upd_write _ _ _ _ j hj (List.nodup_range nc) hinj

-- Folding max over coerced integers stays a coerced integer once the
-- accumulator is one.
theorem foldl_max_coe (f : ℕ → ℤ) (l : List ℕ) (a : ℤ) :
    l.foldl (fun x i => max x ((f i : ℤ) : WithBot ℤ)) (a : WithBot ℤ)
      = ((l.foldl (fun x i => max x (f i)) a : ℤ) : WithBot ℤ) := by
  induction l generalizing a with
  | nil => rfl
  | cons b t ih =>
    simp only [List.foldl_cons]
    rw [← WithBot.coe_max, ih]

-- The max fold dominates its inputs and is attained.
theorem foldl_max_spec (f : ℕ → ℤ) (l : List ℕ) (a : ℤ) :
    a ≤ l.foldl (fun x i => max x (f i)) a
    ∧ (∀ j ∈ l, f j ≤ l.foldl (fun x i => max x (f i)) a)
    ∧ (l.foldl (fun x i => max x (f i)) a = a
        ∨ ∃ j ∈ l, f j = l.foldl (fun x i => max x (f i)) a) := by
  induction l generalizing a with
  | nil => exact ⟨le_refl _, by simp, .inl rfl⟩
  | cons b t ih =>
    obtain ⟨h1, h2, h3⟩ := ih (max a (f b))
    simp only [List.foldl_cons]
    refine ⟨le_trans (le_max_left _ _) h1, ?_, ?_⟩
    · intro j hj
      rcases List.mem_cons.mp hj with rfl | hjt
      · exact le_trans (le_max_right _ _) h1
      · exact h2 j hjt
    · rcases h3 with he | ⟨j, hj, hje⟩
      · rcases max_choice a (f b) with hc | hc
        · exact .inl (by rw [he, hc])
        · exact .inr ⟨b, List.mem_cons_self _ _, by rw [he, hc]⟩
      · exact .inr ⟨j, List.mem_cons_of_mem _ hj, hje⟩

-- Starting from -INFINITY, the max fold over a nonempty list lands on the
-- maximum of the inputs.
theorem foldl_max_char (f : ℕ → ℤ) (l : List ℕ) (hl : l ≠ []) :
    ∃ c : ℤ, (l.foldl (fun a i => max a ((f i : ℤ) : WithBot ℤ)) ⊥) = (c : WithBot ℤ)
      ∧ (∀ j ∈ l, f j ≤ c) ∧ (∃ j ∈ l, f j = c) := by
  cases l with
  | nil => exact absurd rfl hl
  | cons x t =>
    simp only [List.foldl_cons, max_eq_right bot_le, foldl_max_coe]
    obtain ⟨h1, h2, h3⟩ := foldl_max_spec f t (f x)
    refine ⟨_, rfl, ?_, ?_⟩
    · intro j hj
      rcases List.mem_cons.mp hj with rfl | hjt
      · exact h1
      · exact h2 j hjt
    · rcases h3 with he | ⟨j, hj, hje⟩
      · exact ⟨x, List.mem_cons_self _ _, he.symm⟩
      · exact ⟨j, List.mem_cons_of_mem _ hj, hje⟩

-- The largest value of softmaxGPU is the maximum of the int-truncated class
-- logits of the cell, for a nonempty class list.
theorem softmaxLargest_char (input : ℕ → ℚ) (bb G z nc : ℕ) (hnc : 1 ≤ nc) :
    ∃ c : ℤ, softmaxLargest input bb G z nc = (c : WithBot ℤ)
      ∧ (∀ j < nc, truncQ (input (tensorIdx G bb nc z (5 + j))) ≤ c)
      ∧ (∃ j < nc, truncQ (input (tensorIdx G bb nc z (5 + j))) = c) := by
  obtain ⟨c, hc, h2, j, hj, hje⟩ := foldl_max_char
    (fun i => truncQ (input (tensorIdx G bb nc z (5 + i)))) (List.range nc)
    (by simp [List.range_eq_nil]; omega)
  exact ⟨c, hc, fun j2 hj2 => h2 j2 (List.mem_range.mpr hj2),
    j, List.mem_range.mp hj, hje⟩

-- Multiplying each summand by a constant factors out of a list sum.
theorem sum_map_factor (g : ℕ → ℚ) (k : ℚ) (l : List ℕ) :
    (l.map (fun j => g j * k)).sum = (l.map g).sum * k := by
  induction l with
  | nil => simp
  | cons b t ih =>
    simp only [List.map_cons, List.sum_cons, ih]
    ring

-- ------------------------------------------------------------------
-- Claims.
-- ------------------------------------------------------------------

/-- Claim C1: in the anchor-mask (yolo) decode variant, for every in-range
cell/anchor that passes the objectness gate, the decoded center is
(sigmoid(tx) * alpha + beta + cell_x) * netWidth / gridSizeX with
beta = -0.5 * (alpha - 1) (analogously for y), the size is exp(tw) times the
anchor-prior width selected through the anchor mask with no grid-size
rescaling (analogously for h), and center+size is written as corners
left = cx - w/2, top = cy - h/2, right = cx + w/2, bottom = cy + h/2. -/
theorem C1_yolo_box_decode (E : ℚ → ℚ) (p : YoloParams) (x_id y_id z_id : ℕ)
    (s : DecodeState)
    (hx : x_id < p.gridSizeX) (hy : y_id < p.gridSizeY) (hz : z_id < p.numBBoxes)
    (hobj : ¬ sigmoidGPU E (p.input (tensorIdx (p.gridSizeX * p.gridSizeY)
      (y_id * p.gridSizeX + x_id) p.numOutputClasses z_id 4)) < p.scoreThreshold) :
    (gpuYoloLayer E p x_id y_id z_id s).d_boxes (s.count * 4 + 0)
        = (sigmoidGPU E (p.input (tensorIdx (p.gridSizeX * p.gridSizeY)
            (y_id * p.gridSizeX + x_id) p.numOutputClasses z_id 0))
            * p.scaleXY + (-(1 / 2 : ℚ)) * (p.scaleXY - 1) + (x_id : ℚ))
            * (p.netWidth : ℚ) / (p.gridSizeX : ℚ)
          - (E (p.input (tensorIdx (p.gridSizeX * p.gridSizeY)
              (y_id * p.gridSizeX + x_id) p.numOutputClasses z_id 2))
              * p.anchors (p.mask z_id * 2)) / 2
    ∧ (gpuYoloLayer E p x_id y_id z_id s).d_boxes (s.count * 4 + 1)
        = (sigmoidGPU E (p.input (tensorIdx (p.gridSizeX * p.gridSizeY)
            (y_id * p.gridSizeX + x_id) p.numOutputClasses z_id 1))
            * p.scaleXY + (-(1 / 2 : ℚ)) * (p.scaleXY - 1) + (y_id : ℚ))
            * (p.netHeight : ℚ) / (p.gridSizeY : ℚ)
          - (E (p.input (tensorIdx (p.gridSizeX * p.gridSizeY)
              (y_id * p.gridSizeX + x_id) p.numOutputClasses z_id 3))
              * p.anchors (p.mask z_id * 2 + 1)) / 2
    ∧ (gpuYoloLayer E p x_id y_id z_id s).d_boxes (s.count * 4 + 2)
        = (sigmoidGPU E (p.input (tensorIdx (p.gridSizeX * p.gridSizeY)
            (y_id * p.gridSizeX + x_id) p.numOutputClasses z_id 0))
            * p.scaleXY + (-(1 / 2 : ℚ)) * (p.scaleXY - 1) + (x_id : ℚ))
            * (p.netWidth : ℚ) / (p.gridSizeX : ℚ)
          + (E (p.input (tensorIdx (p.gridSizeX * p.gridSizeY)
              (y_id * p.gridSizeX + x_id) p.numOutputClasses z_id 2))
              * p.anchors (p.mask z_id * 2)) / 2
    ∧ (gpuYoloLayer E p x_id y_id z_id s).d_boxes (s.count * 4 + 3)
        = (sigmoidGPU E (p.input (tensorIdx (p.gridSizeX * p.gridSizeY)
            (y_id * p.gridSizeX + x_id) p.numOutputClasses z_id 1))
            * p.scaleXY + (-(1 / 2 : ℚ)) * (p.scaleXY - 1) + (y_id : ℚ))
            * (p.netHeight : ℚ) / (p.gridSizeY : ℚ)
          + (E (p.input (tensorIdx (p.gridSizeX * p.gridSizeY)
              (y_id * p.gridSizeX + x_id) p.numOutputClasses z_id 3))
              * p.anchors (p.mask z_id * 2 + 1)) / 2 := by
  have hrange : ¬ (x_id ≥ p.gridSizeX ∨ y_id ≥ p.gridSizeY ∨ z_id ≥ p.numBBoxes) := by
    omega
  simp only [gpuYoloLayer, if_neg hrange, if_neg hobj]
  refine ⟨?_, ?_, ?_, ?_⟩
  · rw [upd_ne _ _ _ _ (by omega), upd_ne _ _ _ _ (by omega),
      upd_ne _ _ _ _ (by omega), upd_self]
    ring
  · rw [upd_ne _ _ _ _ (by omega), upd_ne _ _ _ _ (by omega), upd_self]
    ring
  · rw [upd_ne _ _ _ _ (by omega), upd_self]
    ring
  · rw [upd_self]
    ring

/-- Witness for C1 at a concrete grid cell: the 1x1 grid with constant zero
input, threshold 0, scale factor 1 and anchor prior 3 passes all hypotheses. -/
theorem C1_yolo_box_decode_witness :
    (0 < pY.gridSizeX ∧ 0 < pY.gridSizeY ∧ 0 < pY.numBBoxes
      ∧ ¬ sigmoidGPU E1 (pY.input (tensorIdx (pY.gridSizeX * pY.gridSizeY)
          (0 * pY.gridSizeX + 0) pY.numOutputClasses 0 4)) < pY.scoreThreshold)
    ∧ (gpuYoloLayer E1 pY 0 0 0 s0).d_boxes (s0.count * 4 + 0)
        = (sigmoidGPU E1 (pY.input (tensorIdx (pY.gridSizeX * pY.gridSizeY)
            (0 * pY.gridSizeX + 0) pY.numOutputClasses 0 0))
            * pY.scaleXY + (-(1 / 2 : ℚ)) * (pY.scaleXY - 1) + ((0 : ℕ) : ℚ))
            * (pY.netWidth : ℚ) / (pY.gridSizeX : ℚ)
          - (E1 (pY.input (tensorIdx (pY.gridSizeX * pY.gridSizeY)
              (0 * pY.gridSizeX + 0) pY.numOutputClasses 0 2))
              * pY.anchors (pY.mask 0 * 2)) / 2 := by
  have hobj : ¬ sigmoidGPU E1 (pY.input (tensorIdx (pY.gridSizeX * pY.gridSizeY)
      (0 * pY.gridSizeX + 0) pY.numOutputClasses 0 4)) < pY.scoreThreshold := by
    norm_num [pY, inp0, sigmoidGPU, E1]
  exact ⟨⟨by norm_num [pY], by norm_num [pY], by norm_num [pY], hobj⟩,
    (C1_yolo_box_decode E1 pY 0 0 0 s0 (by norm_num [pY]) (by norm_num [pY])
      (by norm_num [pY]) hobj).1⟩

/-- Counterexample to claim C2: the claim says a cell whose objectness is
exactly equal to the score threshold is excluded. With threshold 1/2 and a
zero objectness logit (sigmoid = 1/2, exactly the threshold), the kernel
reserves a slot: the counter is incremented, so the cell is included, because
the source filter `objectness < scoreThreshold` only excludes cells strictly
below the threshold. -/
theorem C2_equal_threshold_counterexample :
    sigmoidGPU E1 (pYeq.input (tensorIdx (pYeq.gridSizeX * pYeq.gridSizeY)
      (0 * pYeq.gridSizeX + 0) pYeq.numOutputClasses 0 4)) = pYeq.scoreThreshold
    ∧ (gpuYoloLayer E1 pYeq 0 0 0 s0).count = 1 := by
  have hrange : ¬ ((0 : ℕ) ≥ pYeq.gridSizeX ∨ (0 : ℕ) ≥ pYeq.gridSizeY
      ∨ (0 : ℕ) ≥ pYeq.numBBoxes) := by
    norm_num [pYeq, pY]
  have hgate : ¬ sigmoidGPU E1 (pYeq.input (tensorIdx (pYeq.gridSizeX * pYeq.gridSizeY)
      (0 * pYeq.gridSizeX + 0) pYeq.numOutputClasses 0 4)) < pYeq.scoreThreshold := by
    norm_num [pYeq, pY, inp0, sigmoidGPU, E1]
  refine ⟨by norm_num [pYeq, pY, inp0, sigmoidGPU, E1], ?_⟩
  simp only [gpuYoloLayer, if_neg hrange, if_neg hgate]
  simp [s0]

/-- Claim C2 as amended: for every in-range cell/anchor of either kernel, the
filter is the strict comparison objectness < threshold: a cell strictly below
the threshold contributes nothing (the state, counter included, is returned
unchanged), and a cell with objectness greater than or equal to the threshold
(exact equality included) reserves a slot (the counter is incremented). -/
theorem C2_threshold_gate_amended (E : ℚ → ℚ) (p : YoloParams) (q : RegionParams)
    (x_id y_id z_id x2 y2 z2 : ℕ) (s t : DecodeState) (softmax : ℕ → ℚ)
    (hx : x_id < p.gridSizeX) (hy : y_id < p.gridSizeY) (hz : z_id < p.numBBoxes)
    (hx2 : x2 < q.gridSizeX) (hy2 : y2 < q.gridSizeY) (hz2 : z2 < q.numBBoxes) :
    (sigmoidGPU E (p.input (tensorIdx (p.gridSizeX * p.gridSizeY)
        (y_id * p.gridSizeX + x_id) p.numOutputClasses z_id 4)) < p.scoreThreshold →
      gpuYoloLayer E p x_id y_id z_id s = s)
    ∧ (¬ sigmoidGPU E (p.input (tensorIdx (p.gridSizeX * p.gridSizeY)
        (y_id * p.gridSizeX + x_id) p.numOutputClasses z_id 4)) < p.scoreThreshold →
      (gpuYoloLayer E p x_id y_id z_id s).count = s.count + 1)
    ∧ (sigmoidGPU E (q.input (tensorIdx (q.gridSizeX * q.gridSizeY)
        (y2 * q.gridSizeX + x2) q.numOutputClasses z2 4)) < q.scoreThreshold →
      gpuRegionLayer E q x2 y2 z2 t softmax = (t, softmax))
    ∧ (¬ sigmoidGPU E (q.input (tensorIdx (q.gridSizeX * q.gridSizeY)
        (y2 * q.gridSizeX + x2) q.numOutputClasses z2 4)) < q.scoreThreshold →
      (gpuRegionLayer E q x2 y2 z2 t softmax).1.count = t.count + 1) := by
  have hrange : ¬ (x_id ≥ p.gridSizeX ∨ y_id ≥ p.gridSizeY ∨ z_id ≥ p.numBBoxes) := by
    omega
  have hrange2 : ¬ (x2 ≥ q.gridSizeX ∨ y2 ≥ q.gridSizeY ∨ z2 ≥ q.numBBoxes) := by
    omega
  refine ⟨fun hlt => ?_, fun hge => ?_, fun hlt => ?_, fun hge => ?_⟩
  · simp only [gpuYoloLayer, if_neg hrange, if_pos hlt]
  · simp only [gpuYoloLayer, if_neg hrange, if_neg hge]
  · simp only [gpuRegionLayer, if_neg hrange2, if_pos hlt]
  · simp only [gpuRegionLayer, if_neg hrange2, if_neg hge]

/-- Witness for the amended C2 at concrete cells: with threshold 1/2 and zero
logits both kernels include the exactly-equal cell, and with the all-zero
input both in-range hypotheses hold. -/
theorem C2_threshold_gate_amended_witness :
    (0 < pYeq.gridSizeX ∧ 0 < pYeq.gridSizeY ∧ 0 < pYeq.numBBoxes
      ∧ 0 < pR.gridSizeX ∧ 0 < pR.gridSizeY ∧ 0 < pR.numBBoxes)
    ∧ (¬ sigmoidGPU E1 (pYeq.input (tensorIdx (pYeq.gridSizeX * pYeq.gridSizeY)
        (0 * pYeq.gridSizeX + 0) pYeq.numOutputClasses 0 4)) < pYeq.scoreThreshold →
      (gpuYoloLayer E1 pYeq 0 0 0 s0).count = s0.count + 1) := by
  refine ⟨by norm_num [pYeq, pY, pR], ?_⟩
  exact (C2_threshold_gate_amended E1 pYeq pR 0 0 0 0 0 0 s0 s0 inp0
    (by norm_num [pYeq, pY]) (by norm_num [pYeq, pY]) (by norm_num [pYeq, pY])
    (by norm_num [pR]) (by norm_num [pR]) (by norm_num [pR])).2.1

/-- Counterexample to claim C3: the claim predicts (a) that a reference
from = -1 at currentIndex 5 with 4 recorded outputs passes the checks (the
resolved index 3 is in bounds and strictly below currentIndex - 1 = 4), yet
the source assert i + from - 1 < i - 2 rejects it; and (b) that from = 0, as
a non-negative value, is normalized, which would make it pass, yet the source
only normalizes from > 0 and rejects from = 0. -/
theorem C3_backref_counterexample :
    backRefOkSpec 5 (-1) 4 = true ∧ backRefOk 5 (-1) 4 = false
    ∧ backRefOkSpec 5 0 4 = true ∧ backRefOk 5 0 4 = false := by
  decide

/-- Claim C3 as amended: a strictly positive from (not any non-negative one)
is normalized to from - currentIndex + 1; the back-reference checks pass iff
the resolved index i + from - 1 is within bounds of the recorded outputs and
strictly less than currentIndex - 2 (so the immediate predecessor is also
excluded), with currentIndex at least 2 and the predecessor index
currentIndex - 2 itself in bounds; a reference that violates the checks makes
a shortcut block fail the build with an assert, it is never clamped. Stated
under overflow-free bounds on the inputs, since the source evaluates the
asserts in unsigned 32-bit arithmetic. -/
theorem C3_backref_check_amended (i : ℕ) (frm : ℤ) (len : ℕ)
    (ext : Ext) (P : BuildParams) (blk : Block) (st : LoopState) (fs act : Line)
    (hi : i ≤ 2 ^ 30) (hf : frm.natAbs ≤ 2 ^ 30) (hl : len ≤ 2 ^ 30)
    (hch : st.previous.c = st.channels)
    (htype : mapFind blk (strL "type") = some (strL "shortcut"))
    (hact : mapFind blk (strL "activation") = some act)
    (hfrom : mapFind blk (strL "from") = some fs)
    (hstoi : ext.stoi fs = frm)
    (hlen : st.tensorOutputs.length = len) :
    (backRefOk i frm len = true
      ↔ (2 ≤ i ∧ (i : ℤ) - 2 < (len : ℤ)
          ∧ 0 ≤ (i : ℤ) + backRefResolve i frm - 1
          ∧ (i : ℤ) + backRefResolve i frm - 1 < (len : ℤ)
          ∧ (i : ℤ) + backRefResolve i frm - 1 < (i : ℤ) - 2))
    ∧ (backRefOk i frm len = false →
        processBlock ext P i blk st = .error .backRefAssert) := by
  constructor
  · simp only [backRefOk, backRefResolve, Bool.and_eq_true, decide_eq_true_eq]
    unfold u32
    split_ifs with hpos <;> omega
  · intro hbr
    have hch2 : ¬ (st.previous.c ≠ st.channels) := by simp [hch]
    simp only [processBlock, if_neg hch2, htype, hact, hfrom, hstoi, hlen, if_true]
    simp [hbr]
    rw [if_neg (show ¬ (strL "shortcut" = strL "net") by decide),
        if_neg (show ¬ (strL "shortcut" = strL "convolutional") by decide),
        if_neg (show ¬ (strL "shortcut" = strL "implicit_add"
          ∨ strL "shortcut" = strL "implicit_mul") by decide),
        if_neg (show ¬ (strL "shortcut" = strL "shift_channels"
          ∨ strL "shortcut" = strL "control_channels") by decide),
        if_neg (show ¬ (strL "shortcut" = strL "dropout") by decide)]

/-- Witness for the amended C3: at currentIndex 5 with from = 0 and four
recorded outputs all hypotheses hold concretely; the characterization applies
and the shortcut block fails the build with the back-reference assert. -/
theorem C3_backref_check_amended_witness :
    ((5 : ℕ) ≤ 2 ^ 30 ∧ (0 : ℤ).natAbs ≤ 2 ^ 30 ∧ (4 : ℕ) ≤ 2 ^ 30
      ∧ stShort.previous.c = stShort.channels
      ∧ mapFind blkShort (strL "type") = some (strL "shortcut")
      ∧ mapFind blkShort (strL "activation") = some (strL "linear")
      ∧ mapFind blkShort (strL "from") = some (strL "0")
      ∧ extT.stoi (strL "0") = 0
      ∧ stShort.tensorOutputs.length = 4)
    ∧ (backRefOk 5 0 4 = false →
        processBlock extT P1 5 blkShort stShort = .error .backRefAssert) := by
  refine ⟨⟨by norm_num, by norm_num, by norm_num, rfl, by decide, by decide, by decide,
    rfl, rfl⟩, ?_⟩
  exact (C3_backref_check_amended 5 0 4 extT P1 blkShort stShort (strL "0") (strL "linear")
    (by norm_num) (by norm_num) (by norm_num) rfl (by decide) (by decide) (by decide)
    rfl rfl).2

-- Unfolding helper: once the loop result is known, buildYoloNetwork is the
-- post-loop check chain of lines 491-514.
theorem buildYoloNetwork_of_loop (ext : Ext) (P : BuildParams) (blocks : List Block)
    (wlen : ℕ) (st : LoopState)
    (hb : buildLoopAux ext P blocks 0 (initState P) = .ok st) :
    buildYoloNetwork ext P blocks wlen =
      (if wlen ≠ st.weightPtr then .error .unusedWeights
       else if P.yoloCount = st.inputYoloCount then
         if st.modelType = -1 then .error .modelTypeUnknown
         else if P.topK > outputSizeOf st then .error .topkTooBig
         else .ok st
       else .error .cfgError) := by
  unfold buildYoloNetwork
  rw [hb]

theorem buildYoloNetwork_of_loop_error (ext : Ext) (P : BuildParams)
    (blocks : List Block) (wlen : ℕ) (e : BuildError)
    (hb : buildLoopAux ext P blocks 0 (initState P) = .error e) :
    buildYoloNetwork ext P blocks wlen = .error e := by
  unfold buildYoloNetwork
  rw [hb]

/-- Claim C4: after the full block sequence is processed, the build succeeds
only when the number of weight scalars consumed equals the weight buffer
length exactly, and any mismatch is rejected deterministically with the
unused-weights fatal branch. -/
theorem C4_weight_consumption (ext : Ext) (P : BuildParams) (blocks : List Block)
    (wlen : ℕ) :
    (∀ st, buildYoloNetwork ext P blocks wlen = .ok st → st.weightPtr = wlen)
    ∧ (∀ st, buildLoopAux ext P blocks 0 (initState P) = .ok st →
        st.weightPtr ≠ wlen →
        buildYoloNetwork ext P blocks wlen = .error .unusedWeights) := by
  constructor
  · intro st h
    cases hb : buildLoopAux ext P blocks 0 (initState P) with
    | error e =>
      rw [buildYoloNetwork_of_loop_error ext P blocks wlen e hb] at h
      exact absurd h (by simp)
    | ok st2 =>
      rw [buildYoloNetwork_of_loop ext P blocks wlen st2 hb] at h
      split_ifs at h with h1 h2 h3 h4
      all_goals
        first
        | exact Except.noConfusion h
        | (injection h with h
           subst h
           omega)
  · intro st hb hw
    rw [buildYoloNetwork_of_loop ext P blocks wlen st hb, if_pos (by omega)]

/-- Witness for C4: on the concrete two-block config the loop consumes 0
weight scalars, so a declared buffer length of 5 is rejected with the
unused-weights error. -/
theorem C4_weight_consumption_witness :
    (buildLoopAux extT P1 blocks2 0 (initState P1)).map (fun st => st.weightPtr) = .ok 0
    ∧ buildYoloNetwork extT P1 blocks2 5 = .error .unusedWeights := by
  refine ⟨rfl, ?_⟩
  exact (C4_weight_consumption extT P1 blocks2 5).2 _ rfl (by decide)

/-- Claim C8: whenever the number of detection-output (yolo/region) blocks
counted while building differs from the declared scale count m_YoloCount
(member state of the Yolo object, an input of buildYoloNetwork), and the
earlier weight check passed, the build aborts with the reported config error
branch. -/
theorem C8_scale_count_mismatch (ext : Ext) (P : BuildParams) (blocks : List Block)
    (wlen : ℕ) (n : ℕ)
    (h : (buildLoopAux ext P blocks 0 (initState P)).map
          (fun st => (st.weightPtr, st.inputYoloCount)) = .ok (wlen, n))
    (hc : P.yoloCount ≠ n) :
    buildYoloNetwork ext P blocks wlen = .error .cfgError := by
  cases hb : buildLoopAux ext P blocks 0 (initState P) with
  | error e =>
    rw [hb] at h
    exact absurd h (by simp [Except.map])
  | ok st =>
    rw [hb] at h
    simp only [Except.map, Except.ok.injEq, Prod.mk.injEq] at h
    obtain ⟨hw, hn⟩ := h
    rw [buildYoloNetwork_of_loop ext P blocks wlen st hb,
      if_neg (by omega), if_neg (by omega)]

/-- Witness for C8, the concrete scenario of the claim: a config declaring
three yolo sections while m_YoloCount is 2 aborts the build with the config
error. -/
theorem C8_scale_count_mismatch_witness :
    ((buildLoopAux extT P2 blocks4 0 (initState P2)).map
        (fun st => (st.weightPtr, st.inputYoloCount)) = .ok (0, 3)
      ∧ P2.yoloCount ≠ 3)
    ∧ buildYoloNetwork extT P2 blocks4 0 = .error .cfgError := by
  refine ⟨⟨rfl, by decide⟩, ?_⟩
  exact C8_scale_count_mismatch extT P2 blocks4 0 3 rfl (by decide)

/-- Claim C9: once the loop has completed with matching weight consumption,
matching scale count and a determined model type, the build fails with the
topk-too-big fatal branch exactly when the declared top-K exceeds the sum
over all scales of gridSizeX * gridSizeY * numBBoxes, and otherwise proceeds
to success. -/
theorem C9_topk_check (ext : Ext) (P : BuildParams) (blocks : List Block)
    (wlen : ℕ) (n : ℕ) (mt : ℤ) (oS : ℕ)
    (h : (buildLoopAux ext P blocks 0 (initState P)).map
          (fun st => (st.weightPtr, st.inputYoloCount, st.modelType, outputSizeOf st))
        = .ok (wlen, n, mt, oS))
    (hn : P.yoloCount = n) (hmt : mt ≠ -1) :
    (oS < P.topK → buildYoloNetwork ext P blocks wlen = .error .topkTooBig)
    ∧ (P.topK ≤ oS →
        ∃ st, buildYoloNetwork ext P blocks wlen = .ok st ∧ outputSizeOf st = oS) := by
  cases hb : buildLoopAux ext P blocks 0 (initState P) with
  | error e =>
    rw [hb] at h
    exact absurd h (by simp [Except.map])
  | ok st =>
    rw [hb] at h
    simp only [Except.map, Except.ok.injEq, Prod.mk.injEq] at h
    obtain ⟨hw, hyc, hm, ho⟩ := h
    have hne : st.modelType ≠ -1 := by rw [hm]; exact hmt
    constructor
    · intro hlt
      rw [buildYoloNetwork_of_loop ext P blocks wlen st hb,
        if_neg (by omega), if_pos (by omega), if_neg hne, if_pos (by omega)]
    · intro hle
      refine ⟨st, ?_, ho⟩
      rw [buildYoloNetwork_of_loop ext P blocks wlen st hb,
        if_neg (by omega), if_pos (by omega), if_neg hne, if_neg (by omega)]

/-- Witness for C9: on the concrete config the total candidate count is
2 x 2 x 1 = 4, so a declared top-K of 99 is rejected with the topk error,
while the same build with top-K 1 succeeds. -/
theorem C9_topk_check_witness :
    ((buildLoopAux extT P3 blocks2 0 (initState P3)).map
        (fun st => (st.weightPtr, st.inputYoloCount, st.modelType, outputSizeOf st))
      = .ok (0, 1, 1, 4)
      ∧ P3.yoloCount = 1)
    ∧ buildYoloNetwork extT P3 blocks2 0 = .error .topkTooBig := by
  refine ⟨⟨rfl, rfl⟩, ?_⟩
  exact (C9_topk_check extT P3 blocks2 0 1 1 4 rfl rfl (by decide)).1 (by decide)

/-- Counterexample to claim C5: the claim says the stabilizer subtracted from
every logit before exponentiating is the per-cell maximum logit. With a single
class logit 5/2 the subtracted constant is 2, because the source reads each
logit into an int variable (int val = input[...]) before maximizing, so the
exponent argument is 1/2 where subtracting the true maximum logit would give 0. -/
theorem C5_stabilizer_counterexample :
    softmaxLargest inp52 0 1 0 1 = ((2 : ℤ) : WithBot ℤ)
    ∧ truncQ (inp52 (tensorIdx 1 0 1 0 5)) = 2
    ∧ inp52 (tensorIdx 1 0 1 0 5)
        - (((softmaxLargest inp52 0 1 0 1).unbot' 0 : ℤ) : ℚ) = 1 / 2
    ∧ inp52 (tensorIdx 1 0 1 0 5) - inp52 (tensorIdx 1 0 1 0 5) = 0
    ∧ (1 / 2 : ℚ) ≠ 0 := by
  have htr : truncQ ((5 : ℚ) / 2) = 2 := by
    rw [truncQ, if_pos (by norm_num)]
    norm_num
  have h1 : softmaxLargest inp52 0 1 0 1 = ((2 : ℤ) : WithBot ℤ) := by
    show (List.range 1).foldl _ ⊥ = _
    simp only [List.range_succ, List.range_zero, List.nil_append, List.foldl_cons,
      List.foldl_nil, inp52]
    rw [max_eq_right bot_le, htr]
  refine ⟨h1, by simpa [inp52] using htr, ?_, by norm_num, by norm_num⟩
  have h2 : (softmaxLargest inp52 0 1 0 1).unbot' 0 = 2 := by
    rw [h1]
    rfl
  rw [h2]
  norm_num [inp52]

/-- Claim C5 as amended: in the region (softmax) decode variant, the per-class
values written for a cell/anchor equal the mathematical temperature-1 softmax
of the class logits; the stabilizing constant subtracted from every logit
before exponentiating is the per-cell maximum of the INT-TRUNCATED logits
(the source reads each logit through an int variable), which cancels in the
quotient. Stated for any model E of __expf that is positive and turns sums
into products, as the exponential does. -/
theorem C5_softmax_amended (E : ℚ → ℚ) (input : ℕ → ℚ) (out : ℕ → ℚ)
    (bb G z nc : ℕ)
    (hE : ∀ t, 0 < E t)
    (hHom : ∀ a b, E (a + b) = E a * E b)
    (hG : 0 < G) (hnc : 1 ≤ nc) :
    (∀ i, i < nc →
      softmaxGPU E input bb G z nc 1 out (tensorIdx G bb nc z (5 + i))
        = E (input (tensorIdx G bb nc z (5 + i)))
          / ((List.range nc).map (fun j => E (input (tensorIdx G bb nc z (5 + j))))).sum)
    ∧ (∃ c : ℤ, softmaxLargest input bb G z nc = (c : WithBot ℤ)
        ∧ (∀ j < nc, truncQ (input (tensorIdx G bb nc z (5 + j))) ≤ c)
        ∧ (∃ j < nc, truncQ (input (tensorIdx G bb nc z (5 + j))) = c)) := by
  refine ⟨?_, softmaxLargest_char input bb G z nc hnc⟩
  intro i hi
  rw [softmaxGPU_apply E input bb G z nc 1 out hG i hi]
  simp only [div_one]
  have hfac : ∀ q : ℚ,
      E (q - (((softmaxLargest input bb G z nc).unbot' 0 : ℤ) : ℚ))
        = E q * E (-(((softmaxLargest input bb G z nc).unbot' 0 : ℤ) : ℚ)) := by
    intro q
    rw [sub_eq_add_neg, hHom]
  simp only [hfac]
  rw [sum_map_factor]
  exact mul_div_mul_right _ _ (ne_of_gt (hE _))

/-- Witness for the amended C5: the constant-one model of __expf is positive
and multiplicative, and a 1-class 1x1 grid satisfies the remaining hypotheses. -/
theorem C5_softmax_amended_witness :
    ((∀ t, 0 < E1 t) ∧ (∀ a b, E1 (a + b) = E1 a * E1 b) ∧ 0 < 1 ∧ 1 ≤ 1)
    ∧ (∀ i, i < 1 →
        softmaxGPU E1 inp0 0 1 0 1 1 inp0 (tensorIdx 1 0 1 0 (5 + i))
          = E1 (inp0 (tensorIdx 1 0 1 0 (5 + i)))
            / ((List.range 1).map (fun j => E1 (inp0 (tensorIdx 1 0 1 0 (5 + j))))).sum) := by
  have hE : ∀ t, 0 < E1 t := fun t => by norm_num [E1]
  have hHom : ∀ a b, E1 (a + b) = E1 a * E1 b := fun a b => by norm_num [E1]
  exact ⟨⟨hE, hHom, by norm_num, le_refl 1⟩,
    (C5_softmax_amended E1 inp0 inp0 0 1 0 1 hE hHom (by norm_num) (le_refl 1)).1⟩

/-- Claim C6: for every surviving detection in both kernel variants, the
scores array receives objectness * maxClassProb + 1.0 at the reserved slot,
the indexes array receives the slot number itself, the boxes array receives
the four corner coordinates of the decoded box, and the classes array
receives the index selected by the max-probability scan. -/
theorem C6_emit_writes (E : ℚ → ℚ) (p : YoloParams) (q : RegionParams)
    (x_id y_id z_id x2 y2 z2 : ℕ) (s t : DecodeState) (softmax : ℕ → ℚ)
    (hx : x_id < p.gridSizeX) (hy : y_id < p.gridSizeY) (hz : z_id < p.numBBoxes)
    (hx2 : x2 < q.gridSizeX) (hy2 : y2 < q.gridSizeY) (hz2 : z2 < q.numBBoxes)
    (hobjY : ¬ sigmoidGPU E (p.input (tensorIdx (p.gridSizeX * p.gridSizeY)
      (y_id * p.gridSizeX + x_id) p.numOutputClasses z_id 4)) < p.scoreThreshold)
    (hobjR : ¬ sigmoidGPU E (q.input (tensorIdx (q.gridSizeX * q.gridSizeY)
      (y2 * q.gridSizeX + x2) q.numOutputClasses z2 4)) < q.scoreThreshold) :
    (gpuYoloLayer E p x_id y_id z_id s).d_indexes s.count = (s.count : ℤ)
    ∧ (gpuYoloLayer E p x_id y_id z_id s).d_scores s.count
        = sigmoidGPU E (p.input (tensorIdx (p.gridSizeX * p.gridSizeY)
            (y_id * p.gridSizeX + x_id) p.numOutputClasses z_id 4))
          * (classMaxLoop (fun i => sigmoidGPU E (p.input
              (tensorIdx (p.gridSizeX * p.gridSizeY) (y_id * p.gridSizeX + x_id)
                p.numOutputClasses z_id (5 + i)))) p.numOutputClasses).1 + 1
    ∧ (gpuYoloLayer E p x_id y_id z_id s).d_classes s.count
        = (classMaxLoop (fun i => sigmoidGPU E (p.input
            (tensorIdx (p.gridSizeX * p.gridSizeY) (y_id * p.gridSizeX + x_id)
              p.numOutputClasses z_id (5 + i)))) p.numOutputClasses).2
    ∧ (gpuYoloLayer E p x_id y_id z_id s).d_boxes (s.count * 4 + 0)
        = (sigmoidGPU E (p.input (tensorIdx (p.gridSizeX * p.gridSizeY)
            (y_id * p.gridSizeX + x_id) p.numOutputClasses z_id 0))
            * p.scaleXY + (-(1 / 2 : ℚ)) * (p.scaleXY - 1) + (x_id : ℚ))
            * (p.netWidth : ℚ) / (p.gridSizeX : ℚ)
          - (E (p.input (tensorIdx (p.gridSizeX * p.gridSizeY)
              (y_id * p.gridSizeX + x_id) p.numOutputClasses z_id 2))
              * p.anchors (p.mask z_id * 2)) / 2
    ∧ (gpuYoloLayer E p x_id y_id z_id s).d_boxes (s.count * 4 + 1)
        = (sigmoidGPU E (p.input (tensorIdx (p.gridSizeX * p.gridSizeY)
            (y_id * p.gridSizeX + x_id) p.numOutputClasses z_id 1))
            * p.scaleXY + (-(1 / 2 : ℚ)) * (p.scaleXY - 1) + (y_id : ℚ))
            * (p.netHeight : ℚ) / (p.gridSizeY : ℚ)
          - (E (p.input (tensorIdx (p.gridSizeX * p.gridSizeY)
              (y_id * p.gridSizeX + x_id) p.numOutputClasses z_id 3))
              * p.anchors (p.mask z_id * 2 + 1)) / 2
    ∧ (gpuYoloLayer E p x_id y_id z_id s).d_boxes (s.count * 4 + 2)
        = (sigmoidGPU E (p.input (tensorIdx (p.gridSizeX * p.gridSizeY)
            (y_id * p.gridSizeX + x_id) p.numOutputClasses z_id 0))
            * p.scaleXY + (-(1 / 2 : ℚ)) * (p.scaleXY - 1) + (x_id : ℚ))
            * (p.netWidth : ℚ) / (p.gridSizeX : ℚ)
          + (E (p.input (tensorIdx (p.gridSizeX * p.gridSizeY)
              (y_id * p.gridSizeX + x_id) p.numOutputClasses z_id 2))
              * p.anchors (p.mask z_id * 2)) / 2
    ∧ (gpuYoloLayer E p x_id y_id z_id s).d_boxes (s.count * 4 + 3)
        = (sigmoidGPU E (p.input (tensorIdx (p.gridSizeX * p.gridSizeY)
            (y_id * p.gridSizeX + x_id) p.numOutputClasses z_id 1))
            * p.scaleXY + (-(1 / 2 : ℚ)) * (p.scaleXY - 1) + (y_id : ℚ))
            * (p.netHeight : ℚ) / (p.gridSizeY : ℚ)
          + (E (p.input (tensorIdx (p.gridSizeX * p.gridSizeY)
              (y_id * p.gridSizeX + x_id) p.numOutputClasses z_id 3))
              * p.anchors (p.mask z_id * 2 + 1)) / 2
    ∧ (gpuRegionLayer E q x2 y2 z2 t softmax).1.d_indexes t.count = (t.count : ℤ)
    ∧ (gpuRegionLayer E q x2 y2 z2 t softmax).1.d_scores t.count
        = sigmoidGPU E (q.input (tensorIdx (q.gridSizeX * q.gridSizeY)
            (y2 * q.gridSizeX + x2) q.numOutputClasses z2 4))
          * (classMaxLoop (fun i =>
              softmaxGPU E q.input (y2 * q.gridSizeX + x2) (q.gridSizeX * q.gridSizeY)
                z2 q.numOutputClasses 1 softmax
                (tensorIdx (q.gridSizeX * q.gridSizeY) (y2 * q.gridSizeX + x2)
                  q.numOutputClasses z2 (5 + i))) q.numOutputClasses).1 + 1
    ∧ (gpuRegionLayer E q x2 y2 z2 t softmax).1.d_classes t.count
        = (classMaxLoop (fun i =>
            softmaxGPU E q.input (y2 * q.gridSizeX + x2) (q.gridSizeX * q.gridSizeY)
              z2 q.numOutputClasses 1 softmax
              (tensorIdx (q.gridSizeX * q.gridSizeY) (y2 * q.gridSizeX + x2)
                q.numOutputClasses z2 (5 + i))) q.numOutputClasses).2
    ∧ (gpuRegionLayer E q x2 y2 z2 t softmax).1.d_boxes (t.count * 4 + 0)
        = (sigmoidGPU E (q.input (tensorIdx (q.gridSizeX * q.gridSizeY)
            (y2 * q.gridSizeX + x2) q.numOutputClasses z2 0))
            + (x2 : ℚ)) * (q.netWidth : ℚ) / (q.gridSizeX : ℚ)
          - (E (q.input (tensorIdx (q.gridSizeX * q.gridSizeY)
              (y2 * q.gridSizeX + x2) q.numOutputClasses z2 2))
              * q.anchors (z2 * 2) * (q.netWidth : ℚ) / (q.gridSizeX : ℚ)) / 2
    ∧ (gpuRegionLayer E q x2 y2 z2 t softmax).1.d_boxes (t.count * 4 + 1)
        = (sigmoidGPU E (q.input (tensorIdx (q.gridSizeX * q.gridSizeY)
            (y2 * q.gridSizeX + x2) q.numOutputClasses z2 1))
            + (y2 : ℚ)) * (q.netHeight : ℚ) / (q.gridSizeY : ℚ)
          - (E (q.input (tensorIdx (q.gridSizeX * q.gridSizeY)
              (y2 * q.gridSizeX + x2) q.numOutputClasses z2 3))
              * q.anchors (z2 * 2 + 1) * (q.netHeight : ℚ) / (q.gridSizeY : ℚ)) / 2
    ∧ (gpuRegionLayer E q x2 y2 z2 t softmax).1.d_boxes (t.count * 4 + 2)
        = (sigmoidGPU E (q.input (tensorIdx (q.gridSizeX * q.gridSizeY)
            (y2 * q.gridSizeX + x2) q.numOutputClasses z2 0))
            + (x2 : ℚ)) * (q.netWidth : ℚ) / (q.gridSizeX : ℚ)
          + (E (q.input (tensorIdx (q.gridSizeX * q.gridSizeY)
              (y2 * q.gridSizeX + x2) q.numOutputClasses z2 2))
              * q.anchors (z2 * 2) * (q.netWidth : ℚ) / (q.gridSizeX : ℚ)) / 2
    ∧ (gpuRegionLayer E q x2 y2 z2 t softmax).1.d_boxes (t.count * 4 + 3)
        = (sigmoidGPU E (q.input (tensorIdx (q.gridSizeX * q.gridSizeY)
            (y2 * q.gridSizeX + x2) q.numOutputClasses z2 1))
            + (y2 : ℚ)) * (q.netHeight : ℚ) / (q.gridSizeY : ℚ)
          + (E (q.input (tensorIdx (q.gridSizeX * q.gridSizeY)
              (y2 * q.gridSizeX + x2) q.numOutputClasses z2 3))
              * q.anchors (z2 * 2 + 1) * (q.netHeight : ℚ) / (q.gridSizeY : ℚ)) / 2 := by
  have hrange : ¬ (x_id ≥ p.gridSizeX ∨ y_id ≥ p.gridSizeY ∨ z_id ≥ p.numBBoxes) := by
    omega
  have hrange2 : ¬ (x2 ≥ q.gridSizeX ∨ y2 ≥ q.gridSizeY ∨ z2 ≥ q.numBBoxes) := by
    omega
  simp only [gpuYoloLayer, gpuRegionLayer, if_neg hrange, if_neg hrange2,
    if_neg hobjY, if_neg hobjR]
  refine ⟨upd_self _ _ _, upd_self _ _ _, upd_self _ _ _, ?_, ?_, ?_, ?_,
    upd_self _ _ _, upd_self _ _ _, upd_self _ _ _, ?_, ?_, ?_, ?_⟩
  · rw [upd_ne _ _ _ _ (by omega), upd_ne _ _ _ _ (by omega),
      upd_ne _ _ _ _ (by omega), upd_self]
    ring
  · rw [upd_ne _ _ _ _ (by omega), upd_ne _ _ _ _ (by omega), upd_self]
    ring
  · rw [upd_ne _ _ _ _ (by omega), upd_self]
    ring
  · rw [upd_self]
    ring
  · rw [upd_ne _ _ _ _ (by omega), upd_ne _ _ _ _ (by omega),
      upd_ne _ _ _ _ (by omega), upd_self]
    ring
  · rw [upd_ne _ _ _ _ (by omega), upd_ne _ _ _ _ (by omega), upd_self]
    ring
  · rw [upd_ne _ _ _ _ (by omega), upd_self]
    ring
  · rw [upd_self]
    ring

/-- Witness for C6 at the concrete 1x1 grid fixture with threshold 0: all
in-range and gate hypotheses hold and the reserved slot receives its own
index in both kernels. -/
theorem C6_emit_writes_witness :
    (¬ sigmoidGPU E1 (pY.input (tensorIdx (pY.gridSizeX * pY.gridSizeY)
        (0 * pY.gridSizeX + 0) pY.numOutputClasses 0 4)) < pY.scoreThreshold
      ∧ ¬ sigmoidGPU E1 (pR.input (tensorIdx (pR.gridSizeX * pR.gridSizeY)
        (0 * pR.gridSizeX + 0) pR.numOutputClasses 0 4)) < pR.scoreThreshold)
    ∧ (gpuYoloLayer E1 pY 0 0 0 s0).d_indexes s0.count = (s0.count : ℤ) := by
  have hobjY : ¬ sigmoidGPU E1 (pY.input (tensorIdx (pY.gridSizeX * pY.gridSizeY)
      (0 * pY.gridSizeX + 0) pY.numOutputClasses 0 4)) < pY.scoreThreshold := by
    norm_num [pY, inp0, sigmoidGPU, E1]
  have hobjR : ¬ sigmoidGPU E1 (pR.input (tensorIdx (pR.gridSizeX * pR.gridSizeY)
      (0 * pR.gridSizeX + 0) pR.numOutputClasses 0 4)) < pR.scoreThreshold := by
    norm_num [pR, inp0, sigmoidGPU, E1]
  exact ⟨⟨hobjY, hobjR⟩,
    (C6_emit_writes E1 pY pR 0 0 0 0 0 0 s0 s0 inp0
      (by norm_num [pY]) (by norm_num [pY]) (by norm_num [pY])
      (by norm_num [pR]) (by norm_num [pR]) (by norm_num [pR]) hobjY hobjR).1⟩

-- sigmoidGPU is strictly positive whenever the exponential model is.
theorem sigmoidGPU_pos (E : ℚ → ℚ) (hE : ∀ t, 0 < E t) (x : ℚ) :
    0 < sigmoidGPU E x := by
  unfold sigmoidGPU
  have := hE (-x)
  positivity

-- The max-probability scan lands on a real class index as soon as at least
-- one class exists and every probability is strictly positive: the running
-- maximum starts at 0, so the first class always overwrites the -1 sentinel.
theorem classMaxLoop_mem (prob : ℕ → ℚ) :
    ∀ nc, 1 ≤ nc → (∀ i, i < nc → 0 < prob i) →
      0 ≤ (classMaxLoop prob nc).2 ∧ (classMaxLoop prob nc).2 < (nc : ℤ) := by
  intro nc
  induction nc with
  | zero => omega
  | succ n ih =>
    intro _ hpos
    have hstep : classMaxLoop prob (n + 1)
        = (if prob n > (classMaxLoop prob n).1 then (prob n, (n : ℤ))
           else classMaxLoop prob n) := by
      unfold classMaxLoop
      rw [List.range_succ, List.foldl_append, List.foldl_cons, List.foldl_nil]
    by_cases hn : n = 0
    · subst hn
      have h0 : classMaxLoop prob 0 = (0, -1) := rfl
      rw [hstep, h0]
      rw [if_pos (by simpa using hpos 0 (by omega))]
      simp
    · obtain ⟨ih1, ih2⟩ := ih (by omega) (fun i hi => hpos i (by omega))
      rw [hstep]
      by_cases hp : prob n > (classMaxLoop prob n).1
      · rw [if_pos hp]
        constructor
        · show (0 : ℤ) ≤ (n : ℤ)
          exact_mod_cast Nat.zero_le n
        · show (n : ℤ) < ((n + 1 : ℕ) : ℤ)
          exact_mod_cast Nat.lt_succ_self n
      · rw [if_neg hp]
        refine ⟨ih1, lt_trans ih2 ?_⟩
        exact_mod_cast Nat.lt_succ_self n

/-- Claim C10: in both kernel variants, whenever at least one class exists,
every emitted class index of a surviving in-range cell lies between 0 and
numOutputClasses - 1 (the -1 sentinel is never written), because the sigmoid
and softmax probabilities are strictly positive (given a positive model of
__expf), so the running maximum initialized to 0.0 / -1 is overwritten at the
first class. -/
theorem C10_class_index_range (E : ℚ → ℚ) (p : YoloParams) (q : RegionParams)
    (x_id y_id z_id x2 y2 z2 : ℕ) (s t : DecodeState) (softmax : ℕ → ℚ)
    (hE : ∀ u, 0 < E u)
    (hncY : 1 ≤ p.numOutputClasses) (hncR : 1 ≤ q.numOutputClasses)
    (hx : x_id < p.gridSizeX) (hy : y_id < p.gridSizeY) (hz : z_id < p.numBBoxes)
    (hx2 : x2 < q.gridSizeX) (hy2 : y2 < q.gridSizeY) (hz2 : z2 < q.numBBoxes)
    (hobjY : ¬ sigmoidGPU E (p.input (tensorIdx (p.gridSizeX * p.gridSizeY)
      (y_id * p.gridSizeX + x_id) p.numOutputClasses z_id 4)) < p.scoreThreshold)
    (hobjR : ¬ sigmoidGPU E (q.input (tensorIdx (q.gridSizeX * q.gridSizeY)
      (y2 * q.gridSizeX + x2) q.numOutputClasses z2 4)) < q.scoreThreshold) :
    (0 ≤ (gpuYoloLayer E p x_id y_id z_id s).d_classes s.count
      ∧ (gpuYoloLayer E p x_id y_id z_id s).d_classes s.count
          < (p.numOutputClasses : ℤ))
    ∧ (0 ≤ (gpuRegionLayer E q x2 y2 z2 t softmax).1.d_classes t.count
      ∧ (gpuRegionLayer E q x2 y2 z2 t softmax).1.d_classes t.count
          < (q.numOutputClasses : ℤ)) := by
  have hrange : ¬ (x_id ≥ p.gridSizeX ∨ y_id ≥ p.gridSizeY ∨ z_id ≥ p.numBBoxes) := by
    omega
  have hrange2 : ¬ (x2 ≥ q.gridSizeX ∨ y2 ≥ q.gridSizeY ∨ z2 ≥ q.numBBoxes) := by
    omega
  have hGR : 0 < q.gridSizeX * q.gridSizeY := Nat.mul_pos (by omega) (by omega)
  simp only [gpuYoloLayer, gpuRegionLayer, if_neg hrange, if_neg hrange2,
    if_neg hobjY, if_neg hobjR]
  constructor
  · rw [upd_self]
    exact classMaxLoop_mem _ p.numOutputClasses hncY
      (fun i _ => sigmoidGPU_pos E hE _)
  · rw [upd_self]
    refine classMaxLoop_mem _ q.numOutputClasses hncR (fun i hi => ?_)
    rw [softmaxGPU_apply E q.input (y2 * q.gridSizeX + x2) (q.gridSizeX * q.gridSizeY)
      z2 q.numOutputClasses 1 softmax hGR i hi]
    refine div_pos (hE _) ?_
    refine List.sum_pos _ (fun v hv => ?_) ?_
    · obtain ⟨j, hj, rfl⟩ := List.mem_map.mp hv
      exact hE _
    · simp only [ne_eq, List.map_eq_nil_iff, List.range_eq_nil]
      omega

/-- Witness for C10 at the concrete 1x1 grid, one class, threshold-zero
fixture with the constant-one model of __expf. -/
theorem C10_class_index_range_witness :
    ((∀ u, 0 < E1 u) ∧ 1 ≤ pY.numOutputClasses ∧ 1 ≤ pR.numOutputClasses
      ∧ ¬ sigmoidGPU E1 (pY.input (tensorIdx (pY.gridSizeX * pY.gridSizeY)
          (0 * pY.gridSizeX + 0) pY.numOutputClasses 0 4)) < pY.scoreThreshold
      ∧ ¬ sigmoidGPU E1 (pR.input (tensorIdx (pR.gridSizeX * pR.gridSizeY)
          (0 * pR.gridSizeX + 0) pR.numOutputClasses 0 4)) < pR.scoreThreshold)
    ∧ (0 ≤ (gpuYoloLayer E1 pY 0 0 0 s0).d_classes s0.count
      ∧ (gpuYoloLayer E1 pY 0 0 0 s0).d_classes s0.count < (pY.numOutputClasses : ℤ)) := by
  have hE : ∀ u, 0 < E1 u := fun u => by norm_num [E1]
  have hobjY : ¬ sigmoidGPU E1 (pY.input (tensorIdx (pY.gridSizeX * pY.gridSizeY)
      (0 * pY.gridSizeX + 0) pY.numOutputClasses 0 4)) < pY.scoreThreshold := by
    norm_num [pY, inp0, sigmoidGPU, E1]
  have hobjR : ¬ sigmoidGPU E1 (pR.input (tensorIdx (pR.gridSizeX * pR.gridSizeY)
      (0 * pR.gridSizeX + 0) pR.numOutputClasses 0 4)) < pR.scoreThreshold := by
    norm_num [pR, inp0, sigmoidGPU, E1]
  exact ⟨⟨hE, by norm_num [pY], by norm_num [pR], hobjY, hobjR⟩,
    (C10_class_index_range E1 pY pR 0 0 0 0 0 0 s0 s0 inp0 hE
      (by norm_num [pY]) (by norm_num [pR])
      (by norm_num [pY]) (by norm_num [pY]) (by norm_num [pY])
      (by norm_num [pR]) (by norm_num [pR]) (by norm_num [pR]) hobjY hobjR).1⟩

-- ------------------------------------------------------------------
-- Parser lemmas for claim C7.
-- ------------------------------------------------------------------

-- std::map::insert never overwrites: lookups of present keys are stable.
theorem mapFind_mapInsert (b : Block) (k v k2 : Line)
    (h : (mapFind b k2).isSome) :
    mapFind (mapInsert b k v) k2 = mapFind b k2 := by
  unfold mapInsert
  split_ifs with hk
  · rfl
  · unfold mapFind at h ⊢
    cases hf : b.find? (fun p2 => p2.1 == k2) with
    | none => rw [hf] at h; simp at h
    | some pr =>
      rw [List.find?_append, hf]
      rfl

theorem mapInsert_ne_nil (b : Block) (k v : Line) : mapInsert b k v ≠ [] := by
  unfold mapInsert
  split_ifs with hk
  · intro he
    rw [he] at hk
    simp [mapFind] at hk
  · simp

theorem mapFind_fresh_type (nm : Line) :
    mapFind (mapInsert [] (strL "type") nm) (strL "type") = some nm := rfl

theorem parseLine_skip (st : List Block × Block) (l : Line)
    (h : skipLine l = true) : parseLine st l = st := by
  cases l with
  | nil => rfl
  | cons c ctail =>
    simp only [skipLine, Bool.or_eq_true, beq_iff_eq] at h
    rcases h with h | h
    · simp [parseLine, h]
    · by_cases hsp : c = ' '
      · simp [parseLine, hsp]
      · simp [parseLine, hsp, h]

theorem skip_not_section (l : Line) (h : skipLine l = true) :
    isSectionLine l = false := by
  simp [isSectionLine, h]

theorem sectionNames_cons_of_not (l : Line) (rest : List Line)
    (h : isSectionLine l = false) :
    sectionNames (l :: rest) = sectionNames rest := by
  simp [sectionNames, List.filter_cons, h]

theorem sectionNames_cons_of_sec (l : Line) (rest : List Line)
    (h : isSectionLine l = true) :
    sectionNames (l :: rest) = sectionName l :: sectionNames rest := by
  simp [sectionNames, List.filter_cons, h]

theorem parseLine_section (bs : List Block) (b : Block) (l : Line)
    (hl : isSectionLine l = true) :
    parseLine (bs, b) l
      = ((if b.length > 0 then bs ++ [b] else bs),
         mapInsert [] (strL "type") (sectionName l)) := by
  cases l with
  | nil => simp [isSectionLine, skipLine] at hl
  | cons c ctail =>
    simp only [isSectionLine, Bool.and_eq_true, Bool.not_eq_true', skipLine,
      Bool.or_eq_false_iff, beq_eq_false_iff_ne, ne_eq, beq_iff_eq] at hl
    obtain ⟨⟨hc1, hc2⟩, hhead⟩ := hl
    simp only [parseLine, if_neg hc1, if_neg hc2, if_pos hhead]
    rfl

theorem parseLine_keyval (bs : List Block) (b : Block) (c : Char) (ctail : Line)
    (hc1 : ¬ c = ' ') (hc2 : ¬ c = '#')
    (hsec : ¬ (trim (c :: ctail)).headD '\x00' = '[') :
    ∃ k v, parseLine (bs, b) (c :: ctail) = (bs, mapInsert b k v) := by
  simp only [parseLine, if_neg hc1, if_neg hc2, if_neg hsec]
  cases hf : (trim (c :: ctail)).findIdx? (fun ch => ch = '=') with
  | some cpos => exact ⟨_, _, rfl⟩
  | none => exact ⟨_, _, rfl⟩

-- The getline-loop invariant: once the current block is nonempty with a
-- recorded type, folding further lines appends exactly one block per section
-- line, each carrying the bracketed identifier as its type.
theorem parse_fold_types (lines : List Line) :
    ∀ (bs : List Block) (b : Block) (nm : Line),
      b ≠ [] → mapFind b (strL "type") = some nm →
      (lines.foldl parseLine (bs, b)).2 ≠ []
      ∧ ((lines.foldl parseLine (bs, b)).1.map (fun bl => mapFind bl (strL "type"))
          ++ [mapFind (lines.foldl parseLine (bs, b)).2 (strL "type")]
        = bs.map (fun bl => mapFind bl (strL "type"))
          ++ some nm :: (sectionNames lines).map some) := by
  induction lines with
  | nil =>
    intro bs b nm hb ht
    refine ⟨hb, ?_⟩
    simp [sectionNames, ht]
  | cons l rest ih =>
    intro bs b nm hb ht
    simp only [List.foldl_cons]
    by_cases hskip : skipLine l = true
    · rw [parseLine_skip (bs, b) l hskip,
        sectionNames_cons_of_not l rest (skip_not_section l hskip)]
      exact ih bs b nm hb ht
    · by_cases hsec : isSectionLine l = true
      · rw [parseLine_section bs b l hsec, sectionNames_cons_of_sec l rest hsec]
        obtain ⟨h1, h2⟩ := ih (if b.length > 0 then bs ++ [b] else bs)
          (mapInsert [] (strL "type") (sectionName l)) (sectionName l)
          (mapInsert_ne_nil _ _ _) (mapFind_fresh_type _)
        refine ⟨h1, ?_⟩
        rw [h2]
        have hbpos : b.length > 0 := List.length_pos.mpr hb
        rw [if_pos hbpos, List.map_append]
        simp [ht, List.append_assoc]
      · have hskipF : skipLine l = false := by
          revert hskip
          cases skipLine l <;> simp
        have hsecF : isSectionLine l = false := by
          revert hsec
          cases isSectionLine l <;> simp
        cases l with
        | nil => simp [skipLine] at hskipF
        | cons c ctail =>
          simp only [skipLine, Bool.or_eq_false_iff, beq_eq_false_iff_ne, ne_eq] at hskipF
          obtain ⟨hc1, hc2⟩ := hskipF
          have hsec2 : ¬ (trim (c :: ctail)).headD '\x00' = '[' := by
            intro hcontra
            rw [isSectionLine] at hsecF
            simp [skipLine, hc1, hc2] at hsecF
            exact hsecF (by simpa using hcontra)
          obtain ⟨k, v, hkv⟩ := parseLine_keyval bs b c ctail hc1 hc2 hsec2
          rw [hkv, sectionNames_cons_of_not _ rest hsecF]
          refine ih bs (mapInsert b k v) nm (mapInsert_ne_nil _ _ _) ?_
          rw [mapFind_mapInsert _ _ _ _ (by simp [ht])]
          exact ht

/-- Counterexample to claim C7: (a) a resource with zero bracketed sections
(a single key=value line) yields one block, not zero, because the last open
block is pushed unconditionally at end of input; (b) for a duplicate key
inside a block the retained value is the FIRST-seen one ("1"), not the
last-seen ("2"), because std::map::insert does not overwrite an existing key. -/
theorem C7_parser_counterexample :
    (parseConfigFile [strL "a=1"]).length = 1
    ∧ sectionNames [strL "a=1"] = []
    ∧ mapFind ((parseConfigFile [strL "[s]", strL "a=1", strL "a=2"]).getD 0 [])
        (strL "a") = some (strL "1")
    ∧ ¬ strL "1" = strL "2" := by
  refine ⟨by decide, by decide, by decide, by decide⟩

/-- Claim C7 as amended: for every config resource that contains at least one
bracketed section and in which every line before the first section line is
skipped (empty, or starting with a space or hash), parseConfigFile returns
exactly N blocks for N sections, the k-th block holding a type key equal to
the k-th bracketed identifier; and when the same key appears more than once
inside a block, the retained value is the FIRST-seen one: a later insert of
a present key is a no-op (std::map::insert semantics). -/
theorem C7_parser_amended (pre : List Line) (l : Line) (post : List Line)
    (hpre : ∀ p2 ∈ pre, skipLine p2 = true)
    (hl : isSectionLine l = true) :
    (parseConfigFile (pre ++ l :: post)).length
        = (sectionNames (pre ++ l :: post)).length
    ∧ (parseConfigFile (pre ++ l :: post)).map (fun bl => mapFind bl (strL "type"))
        = (sectionNames (pre ++ l :: post)).map some
    ∧ (∀ (b : Block) (k v : Line), (mapFind b k).isSome → mapInsert b k v = b) := by
  have hfold_pre : pre.foldl parseLine (([] : List Block), ([] : Block)) = ([], []) := by
    clear hl
    induction pre with
    | nil => rfl
    | cons a t iha =>
      simp only [List.foldl_cons]
      rw [parseLine_skip _ _ (hpre a (List.mem_cons_self _ _))]
      exact iha (fun p2 hp2 => hpre p2 (List.mem_cons_of_mem _ hp2))
  have hnames_pre : sectionNames (pre ++ l :: post) = sectionNames (l :: post) := by
    unfold sectionNames
    rw [List.filter_append,
      List.filter_eq_nil_iff.mpr
        (fun a ha => by simp [skip_not_section a (hpre a ha)]),
      List.nil_append]
  have hsplit : parseConfigFile (pre ++ l :: post)
      = ((l :: post).foldl parseLine ([], [])).1
        ++ [((l :: post).foldl parseLine ([], [])).2] := by
    unfold parseConfigFile
    rw [List.foldl_append, hfold_pre]
  have hstep : (l :: post).foldl parseLine (([] : List Block), ([] : Block))
      = post.foldl parseLine ([], mapInsert [] (strL "type") (sectionName l)) := by
    simp only [List.foldl_cons]
    rw [parseLine_section [] [] l hl]
    simp
  obtain ⟨h1, h2⟩ := parse_fold_types post []
    (mapInsert [] (strL "type") (sectionName l)) (sectionName l)
    (mapInsert_ne_nil _ _ _) (mapFind_fresh_type _)
  have hmap : (parseConfigFile (pre ++ l :: post)).map (fun bl => mapFind bl (strL "type"))
      = (sectionNames (pre ++ l :: post)).map some := by
    rw [hsplit, hstep, List.map_append]
    simp only [List.map_cons, List.map_nil]
    rw [h2, hnames_pre, sectionNames_cons_of_sec l post hl]
    simp
  refine ⟨?_, hmap, fun b k v h => by simp [mapInsert, h]⟩
  have hlen := congrArg List.length hmap
  simpa using hlen

/-- Witness for the amended C7: a comment line, a [net] section and one
key=value line satisfy the hypotheses, and the parse yields exactly one block
typed net. -/
theorem C7_parser_amended_witness :
    ((∀ p2 ∈ [strL "# c"], skipLine p2 = true)
      ∧ isSectionLine (strL "[net]") = true)
    ∧ (parseConfigFile ([strL "# c"] ++ strL "[net]" :: [strL "a=1"])).length
        = (sectionNames ([strL "# c"] ++ strL "[net]" :: [strL "a=1"])).length := by
  have hpre : ∀ p2 ∈ [strL "# c"], skipLine p2 = true := by decide
  have hl : isSectionLine (strL "[net]") = true := by decide
  exact ⟨⟨hpre, hl⟩,
    (C7_parser_amended [strL "# c"] (strL "[net]") [strL "a=1"] hpre hl).1⟩

end YoloV
